import Mathlib

/-!
Shallow embedding of the knowledge-graph accessor
(src/chatbot/knowledge_graph.py) and the query entry point of the RAG
chatbot (src/chatbot/rag_chatbot.py).

Conventions of the embedding:
- A parsed JSON file is modelled by `GraphData`: each expected top-level
  key is an `Option` field (`none` = key absent), and `extra` records the
  names of any unrecognised top-level keys (their values are never read).
  Entries under the expected keys are assumed well-shaped (the claims
  under study never need ill-typed entries).
- Python dict truthiness (`if not self.graph_data`) is modelled by
  `pyTruthy`: an empty dict is falsy.
- Python dicts are modelled by association lists in insertion order with
  unique keys; `dict.update` is `pyUpdate` (existing keys keep their
  position and get the new value, new keys are appended).
- The networkx `Graph` is modelled by `NXGraph`: an insertion-ordered
  node list with attribute dicts, plus an insertion-ordered adjacency
  list. `add_node` on an existing id merges attributes via `pyUpdate`
  (networkx semantics); `add_edge` inserts missing endpoints and records
  the adjacency once per direction. Edge attribute dicts are built by the
  source but never read by any query, so they are not stored.
- `str.lower` is modelled by `pyLower` (ASCII case mapping over the
  character list; all strings in the claims are ASCII).
- Exceptions are modelled by the control flow of `load` (which catches
  everything and returns `false`); query methods are total functions,
  mirroring the accessor methods that never raise on the modelled shapes.
-/

inductive JsonVal where
  | str : String → JsonVal
  | int : Int → JsonVal
  | bool : Bool → JsonVal
  | null : JsonVal
deriving DecidableEq

/-- Python `str()` of a scalar JSON value, as used in f-strings. -/
def JsonVal.pyStr : JsonVal → String
  | .str s => s
  | .int n => toString n
  | .bool b => if b then "True" else "False"
  | .null => "None"

/-- One value of the `documents` mapping: the keys the queries read are
explicit `Option` fields, `extra` holds names of any other keys. -/
structure DocInfo where
  topics : Option (List String)
  word_count : Option Int
  extra : List String
deriving DecidableEq

/-- Python truthiness of the per-document dict (`if doc_info:`). -/
def DocInfo.pyTruthy (d : DocInfo) : Bool :=
  !(d.topics.isNone && d.word_count.isNone && d.extra.isEmpty)

/-- One entry of the `nodes` list: `id` plus the remaining key/value
pairs (the dict comprehension in `load` strips the `id` key). -/
structure NodeEntry where
  id : String
  attrs : List (String × JsonVal)
deriving DecidableEq

/-- One entry of the `edges` list. The non-endpoint attributes are built
by `load` but never read by any query, so they are not modelled. -/
structure EdgeEntry where
  source : String
  target : String
deriving DecidableEq

/-- The parsed JSON object held in `self.graph_data`. -/
structure GraphData where
  nodes : Option (List NodeEntry)
  edges : Option (List EdgeEntry)
  documents : Option (List (String × DocInfo))
  statistics : Option (List (String × JsonVal))
  extra : List String
deriving DecidableEq

/-- Python truthiness of `self.graph_data` as a dict: falsy iff empty. -/
def GraphData.pyTruthy (g : GraphData) : Bool :=
  !(g.nodes.isNone && g.edges.isNone && g.documents.isNone &&
    g.statistics.isNone && g.extra.isEmpty)

/-- ASCII lowercase of one character. -/
def lowerChar (c : Char) : Char :=
  if 65 ≤ c.toNat ∧ c.toNat ≤ 90 then Char.ofNat (c.toNat + 32) else c

/-- Python `str.lower` (ASCII fragment), over the character list. -/
def pyLower (s : String) : String := String.mk (s.data.map lowerChar)

/-- Write one key of a Python dict: existing keys keep their position and
receive the new value, a new key is appended. -/
def updEntry (d : List (String × JsonVal)) (k : String) (v : JsonVal) :
    List (String × JsonVal) :=
  if d.any (fun p => p.1 == k) then
    d.map (fun p => if p.1 == k then (p.1, v) else p)
  else d ++ [(k, v)]

/-- Python `dict.update`: apply every pair of `upd` to `d` in order. -/
def pyUpdate (d upd : List (String × JsonVal)) : List (String × JsonVal) :=
  upd.foldl (fun acc p => updEntry acc p.1 p.2) d

/-- The in-memory networkx graph: node insertion order with attribute
dicts, and adjacency lists in insertion order. -/
structure NXGraph where
  nodeList : List (String × List (String × JsonVal))
  adj : List (String × List String)
deriving DecidableEq

def NXGraph.empty : NXGraph := { nodeList := [], adj := [] }

/-- `node_id in graph` membership test. -/
def NXGraph.hasNode (g : NXGraph) (id : String) : Bool :=
  g.nodeList.any (fun p => p.1 == id)

/-- `graph.nodes[n]`: the attribute dict of a node (empty if absent,
which no caller reaches because neighbors are always nodes). -/
def NXGraph.nodeAttrs (g : NXGraph) (id : String) : List (String × JsonVal) :=
  (List.lookup id g.nodeList).getD []

/-- `graph.neighbors(n)` in adjacency insertion order. -/
def NXGraph.neighbors (g : NXGraph) (id : String) : List String :=
  (List.lookup id g.adj).getD []

/-- Python truthiness of the graph object: `len(graph)` is the node
count, so an empty graph is falsy. -/
def NXGraph.pyTruthy (g : NXGraph) : Bool :=
  !g.nodeList.isEmpty

/-- `graph.add_node(id, **attrs)`: a new node is appended with its
attributes; an existing node has its attribute dict updated (networkx
merges, so later writes win per key). -/
def NXGraph.addNode (g : NXGraph) (id : String)
    (attrs : List (String × JsonVal)) : NXGraph :=
  if g.nodeList.any (fun p => p.1 == id) then
    { g with nodeList :=
        g.nodeList.map (fun p => if p.1 == id then (p.1, pyUpdate p.2 attrs) else p) }
  else
    { nodeList := g.nodeList ++ [(id, attrs)], adj := g.adj ++ [(id, [])] }

/-- Append a neighbor to a node of the adjacency map unless present. -/
def addNbr (adj : List (String × List String)) (x y : String) :
    List (String × List String) :=
  adj.map (fun p =>
    if p.1 == x then (p.1, if p.2.contains y then p.2 else p.2 ++ [y]) else p)

/-- `graph.add_edge(u, v, **attrs)`: missing endpoints are inserted with
empty attributes, then each endpoint gains the other as a neighbor
(once; re-adding an existing edge only rewrites its unread attributes). -/
def NXGraph.addEdge (g : NXGraph) (u v : String) : NXGraph :=
  let g1 := if g.nodeList.any (fun p => p.1 == u) then g else
    { nodeList := g.nodeList ++ [(u, [])], adj := g.adj ++ [(u, [])] }
  let g2 := if g1.nodeList.any (fun p => p.1 == v) then g1 else
    { nodeList := g1.nodeList ++ [(v, [])], adj := g1.adj ++ [(v, [])] }
  { g2 with adj := addNbr (addNbr g2.adj u v) v u }

/-- The node/edge rebuild loop of `load` (lines 42-52 of the source). -/
def buildNX (g : GraphData) : NXGraph :=
  let g1 := (g.nodes.getD []).foldl (fun acc n => acc.addNode n.id n.attrs) NXGraph.empty
  (g.edges.getD []).foldl (fun acc e => acc.addEdge e.source e.target) g1

/-- The mutable fields of a `KnowledgeGraphLoader`. -/
structure LoaderState where
  graph_data : Option GraphData
  nx_graph : Option NXGraph
deriving DecidableEq

/-- The state right after `__init__`. -/
def initState : LoaderState := { graph_data := none, nx_graph := none }

/-- What `load` finds at `self.graph_path`: the file is missing,
`json.load` raises, or the file parses to a JSON object. -/
inductive LoadInput where
  | missing : LoadInput
  | unparseable : LoadInput
  | parsed : GraphData → LoadInput

/-- `KnowledgeGraphLoader.load`. A missing file returns `False` before
touching state; a parse error is caught before `self.graph_data` is
assigned. After a successful parse both fields are assigned and the
success diagnostic indexes `graph_data` with the literal keys `nodes`
and `edges`: if either is absent the `KeyError` is caught and `load`
returns `False`, with the assigned state left in place. -/
def KnowledgeGraphLoader.load (input : LoadInput) (s : LoaderState) :
    Bool × LoaderState :=
  match input with
  | .missing => (false, s)
  | .unparseable => (false, s)
  | .parsed g =>
    let s1 : LoaderState := { graph_data := some g, nx_graph := some (buildNX g) }
    match g.nodes, g.edges with
    | some _, some _ => (true, s1)
    | _, _ => (false, s1)

/-- `KnowledgeGraphLoader.get_documents`. -/
def KnowledgeGraphLoader.get_documents (s : LoaderState) : List String :=
  match s.graph_data with
  | none => []
  | some g =>
    if g.pyTruthy then (g.documents.getD []).map (fun p => p.1) else []

/-- `KnowledgeGraphLoader.get_document_info`. -/
def KnowledgeGraphLoader.get_document_info (s : LoaderState) (doc_name : String) :
    Option DocInfo :=
  match s.graph_data with
  | none => none
  | some g =>
    if g.pyTruthy then List.lookup doc_name (g.documents.getD []) else none

/-- `KnowledgeGraphLoader.get_related_documents`. -/
def KnowledgeGraphLoader.get_related_documents (s : LoaderState) (doc_name : String) :
    List String :=
  match s.nx_graph with
  | none => []
  | some g =>
    if !g.pyTruthy || !g.hasNode doc_name then []
    else
      (g.neighbors doc_name).filter (fun neighbor =>
        List.lookup "type" (g.nodeAttrs neighbor) == some (JsonVal.str "document"))

/-- `KnowledgeGraphLoader.get_document_topics`. -/
def KnowledgeGraphLoader.get_document_topics (s : LoaderState) (doc_name : String) :
    List String :=
  match KnowledgeGraphLoader.get_document_info s doc_name with
  | some doc_info => if doc_info.pyTruthy then doc_info.topics.getD [] else []
  | none => []

/-- `KnowledgeGraphLoader.get_documents_by_topic`. -/
def KnowledgeGraphLoader.get_documents_by_topic (s : LoaderState) (topic : String) :
    List String :=
  match s.graph_data with
  | none => []
  | some g =>
    if g.pyTruthy then
      ((g.documents.getD []).filter (fun p =>
        ((p.2.topics.getD []).map pyLower).contains (pyLower topic))).map
        (fun p => p.1)
    else []

/-- Character-list prefix test, used for the Python substring operator. -/
def startsWithChars : List Char → List Char → Bool
  | [], _ => true
  | _ :: _, [] => false
  | a :: as, b :: bs => a == b && startsWithChars as bs

/-- Character-list infix test. -/
def hasSubChars (needle : List Char) : List Char → Bool
  | [] => startsWithChars needle []
  | b :: bs => startsWithChars needle (b :: bs) || hasSubChars needle bs

/-- Python `needle in hay` on strings. -/
def strContains (hay needle : String) : Bool :=
  hasSubChars needle.toList hay.toList

/-- Keep the first occurrence of every string (models turning the
accumulated Python set into a list of its distinct elements). -/
def dedupAux (seen : List String) : List String → List String
  | [] => []
  | x :: xs => if seen.contains x then dedupAux seen xs else x :: dedupAux (x :: seen) xs

def dedupKeepFirst (l : List String) : List String := dedupAux [] l

/-- Code-point lexicographic order on character lists, mirroring Python
string comparison. -/
def charListLt : List Char → List Char → Bool
  | [], [] => false
  | [], _ :: _ => true
  | _ :: _, [] => false
  | a :: as, b :: bs => if a < b then true else if b < a then false else charListLt as bs

def strLt (a b : String) : Bool := charListLt a.toList b.toList

def insertSorted (x : String) : List String → List String
  | [] => [x]
  | y :: ys => if strLt x y then x :: y :: ys else y :: insertSorted x ys

/-- Python `sorted` on a list of distinct strings. -/
def sortStrings (l : List String) : List String := l.foldr insertSorted []

/-- `KnowledgeGraphLoader.search_topics`. The Python code accumulates
matching topics into a set and returns `sorted(list(...))`; here the
matches are collected in encounter order and the set-then-sort step is
`dedupKeepFirst` followed by `sortStrings`, which yields the same sorted
list of distinct matches. -/
def KnowledgeGraphLoader.search_topics (s : LoaderState) (query : String) :
    List String :=
  match s.graph_data with
  | none => []
  | some g =>
    if g.pyTruthy then
      let matching := (g.documents.getD []).foldl (fun acc p =>
        acc ++ (p.2.topics.getD []).filter (fun topic =>
          strContains (pyLower topic) (pyLower query))) []
      sortStrings (dedupKeepFirst matching)
    else []

/-- `KnowledgeGraphLoader.get_statistics`. -/
def KnowledgeGraphLoader.get_statistics (s : LoaderState) : List (String × JsonVal) :=
  match s.graph_data with
  | none => []
  | some g => if g.pyTruthy then g.statistics.getD [] else []

/-- `KnowledgeGraphLoader.get_graph_summary`. -/
def KnowledgeGraphLoader.get_graph_summary (s : LoaderState) : String :=
  match s.graph_data with
  | none => "Knowledge graph not loaded"
  | some g =>
    if g.pyTruthy then
      let stats := KnowledgeGraphLoader.get_statistics s
      let documents := KnowledgeGraphLoader.get_documents s
      let header := "Knowledge Graph Summary:\n- Total Documents: " ++
        JsonVal.pyStr ((List.lookup "total_documents" stats).getD (JsonVal.int 0)) ++
        "\n- Total Nodes: " ++
        JsonVal.pyStr ((List.lookup "total_nodes" stats).getD (JsonVal.int 0)) ++
        "\n- Total Edges: " ++
        JsonVal.pyStr ((List.lookup "total_edges" stats).getD (JsonVal.int 0)) ++
        "\n\nDocuments:\n"
      documents.foldl (fun acc doc =>
        match KnowledgeGraphLoader.get_document_info s doc with
        | some doc_info =>
          if doc_info.pyTruthy then
            acc ++ "  - " ++ doc ++ ": " ++
              toString (doc_info.word_count.getD 0) ++ " words, " ++
              toString (doc_info.topics.getD []).length ++ " topics\n"
          else acc
        | none => acc) header
    else "Knowledge graph not loaded"

/-- The attribute read `self.nx_graph.nodes[id].get("type")` performed
by `get_related_documents`, exposed for reasoning about duplicate ids. -/
def loadedNodeType (s : LoaderState) (id : String) : Option JsonVal :=
  match s.nx_graph with
  | none => none
  | some g => List.lookup "type" (g.nodeAttrs id)

/-- A retrieved source record (`doc.metadata` is all the query reads). -/
structure SourceDoc where
  metadata : List (String × String)

/-- The mapping returned by invoking the conversational chain. -/
structure ChainResult where
  answer : String
  source_documents : Option (List SourceDoc)

/-- The external conversational retrieval chain, opaque except for being
callable on a question. -/
structure QAChain where
  run : String → ChainResult

structure QueryResult where
  answer : String
  sources : List SourceDoc

/-- `RAGChatbot.query`: raises `RuntimeError` when `self.qa_chain` is
still `None`, otherwise invokes the chain and repackages its result. -/
def RAGChatbot.query (qa_chain : Option QAChain) (question : String) :
    Except String QueryResult :=
  match qa_chain with
  | none => Except.error "Chatbot not set up. Call setup() first."
  | some chain =>
    let result := chain.run question
    Except.ok { answer := result.answer,
                sources := result.source_documents.getD [] }

/-! Concrete input fixtures used by the claims. -/

/-- A parsed object with documents but no `edges` key: the rebuild loops
succeed, but the success diagnostic raises on the absent key. -/
def gNoEdges : GraphData :=
  { nodes := some [], edges := none,
    documents := some [("d1", { topics := none, word_count := none, extra := [] })],
    statistics := none, extra := [] }

/-- A graph whose documents collectively carry topics NLP, nlp, Data. -/
def gTopics : GraphData :=
  { nodes := some [], edges := some [],
    documents := some [("doc1",
      { topics := some ["NLP", "nlp", "Data"], word_count := none, extra := [] })],
    statistics := none, extra := [] }

/-- Two node entries share the id n2 with conflicting types; n1 is a
document node edge-connected to n2. -/
def gDupC : GraphData :=
  { nodes := some [⟨"n2", [("type", JsonVal.str "document")]⟩,
                   ⟨"n2", [("type", JsonVal.str "topic")]⟩,
                   ⟨"n1", [("type", JsonVal.str "document")]⟩],
    edges := some [⟨"n1", "n2"⟩],
    documents := none, statistics := none, extra := [] }

/-- Two node entries with the same id and arbitrary `type` values. -/
def gDup (t1 t2 : JsonVal) : GraphData :=
  { nodes := some [⟨"n", [("type", t1)]⟩, ⟨"n", [("type", t2)]⟩],
    edges := some [], documents := none, statistics := none, extra := [] }

/-- The end-to-end fixture of the spec: doc1 with topics ML, NLP and
word_count 500, nodes doc1 and doc2 of type document, one edge. -/
def gC6 : GraphData :=
  { nodes := some [⟨"doc1", [("type", JsonVal.str "document")]⟩,
                   ⟨"doc2", [("type", JsonVal.str "document")]⟩],
    edges := some [⟨"doc1", "doc2"⟩],
    documents := some [("doc1",
      { topics := some ["ML", "NLP"], word_count := some 500, extra := [] })],
    statistics := none, extra := [] }

/-- The empty JSON object. -/
def gEmptyObj : GraphData :=
  { nodes := none, edges := none, documents := none, statistics := none, extra := [] }

/-! Helper lemmas. -/

/-- A lookup on an association list none of whose keys is `d` is `none`. -/
theorem lookup_eq_none_of_keys_ne {β : Type} (d : String) (l : List (String × β))
    (h : ∀ p ∈ l, p.1 ≠ d) : List.lookup d l = none := by
  induction l with
  | nil => rfl
  | cons p t ih =>
    obtain ⟨k, v⟩ := p
    have hk : k ≠ d := h (k, v) (List.mem_cons_self _ _)
    have hbeq : (d == k) = false := beq_eq_false_iff_ne.mpr (Ne.symm hk)
    simp only [List.lookup, hbeq]
    exact ih (fun q hq => h q (List.mem_cons_of_mem _ hq))

/-! Claim theorems. -/

/-- Claim C1, counterexample: a file that parses to an object with
documents but no `edges` key makes `load` return `False`, yet
`get_documents` on the resulting state is nonempty, so a failed load
does not always leave the accessor unloaded. -/
theorem C1_counterexample :
    (KnowledgeGraphLoader.load (.parsed gNoEdges) initState).1 = false ∧
    KnowledgeGraphLoader.get_documents
      (KnowledgeGraphLoader.load (.parsed gNoEdges) initState).2 = ["d1"] ∧
    KnowledgeGraphLoader.get_documents
      (KnowledgeGraphLoader.load (.parsed gNoEdges) initState).2 ≠ [] :=
  ⟨rfl, rfl, by decide⟩

/-- Claim C1, amended: when `load` fails before the file is parsed
(missing file or JSON parse error) on a fresh accessor, it returns
`False` and every query method returns an empty or absent result.
(A post-parse failure, such as a missing `nodes`/`edges` key, still
returns `False` but leaves the parsed data visible to queries.) -/
theorem C1_pre_parse_failure_leaves_unloaded (input : LoadInput)
    (h : input = LoadInput.missing ∨ input = LoadInput.unparseable)
    (d t q : String) :
    (KnowledgeGraphLoader.load input initState).1 = false ∧
    KnowledgeGraphLoader.get_documents
      (KnowledgeGraphLoader.load input initState).2 = [] ∧
    KnowledgeGraphLoader.get_document_info
      (KnowledgeGraphLoader.load input initState).2 d = none ∧
    KnowledgeGraphLoader.get_related_documents
      (KnowledgeGraphLoader.load input initState).2 d = [] ∧
    KnowledgeGraphLoader.get_document_topics
      (KnowledgeGraphLoader.load input initState).2 d = [] ∧
    KnowledgeGraphLoader.get_documents_by_topic
      (KnowledgeGraphLoader.load input initState).2 t = [] ∧
    KnowledgeGraphLoader.search_topics
      (KnowledgeGraphLoader.load input initState).2 q = [] ∧
    KnowledgeGraphLoader.get_statistics
      (KnowledgeGraphLoader.load input initState).2 = [] := by
  rcases h with h | h <;> subst h <;>
    exact ⟨rfl, rfl, rfl, rfl, rfl, rfl, rfl, rfl⟩

/-- Witness for C1 at the concrete input of a missing file. -/
theorem C1_pre_parse_failure_leaves_unloaded_witness :
    (KnowledgeGraphLoader.load LoadInput.missing initState).1 = false ∧
    KnowledgeGraphLoader.get_documents
      (KnowledgeGraphLoader.load LoadInput.missing initState).2 = [] ∧
    KnowledgeGraphLoader.get_document_info
      (KnowledgeGraphLoader.load LoadInput.missing initState).2 "d1" = none ∧
    KnowledgeGraphLoader.get_related_documents
      (KnowledgeGraphLoader.load LoadInput.missing initState).2 "d1" = [] ∧
    KnowledgeGraphLoader.get_document_topics
      (KnowledgeGraphLoader.load LoadInput.missing initState).2 "d1" = [] ∧
    KnowledgeGraphLoader.get_documents_by_topic
      (KnowledgeGraphLoader.load LoadInput.missing initState).2 "ML" = [] ∧
    KnowledgeGraphLoader.search_topics
      (KnowledgeGraphLoader.load LoadInput.missing initState).2 "a" = [] ∧
    KnowledgeGraphLoader.get_statistics
      (KnowledgeGraphLoader.load LoadInput.missing initState).2 = [] :=
  C1_pre_parse_failure_leaves_unloaded LoadInput.missing (Or.inl rfl) "d1" "ML" "a"

/-- Claim C2, counterexample: with topics NLP, nlp, Data loaded,
searching for "a" returns exactly ["Data"], not ["Data", "NLP"]:
neither "NLP" nor "nlp" contains the letter "a". -/
theorem C2_counterexample :
    KnowledgeGraphLoader.search_topics
      (KnowledgeGraphLoader.load (.parsed gTopics) initState).2 "a" = ["Data"] ∧
    KnowledgeGraphLoader.search_topics
      (KnowledgeGraphLoader.load (.parsed gTopics) initState).2 "a" ≠
        ["Data", "NLP"] :=
  ⟨rfl, by decide⟩

/-- Claim C2, amended: with topics NLP, nlp, Data loaded,
`search_topics "a"` returns exactly ["Data"]; results are deduplicated
as exact strings and lexicographically sorted, and case variants are
not collapsed: `search_topics "nlp"` returns ["NLP", "nlp"]. -/
theorem C2_search_topics_sorted_dedup :
    KnowledgeGraphLoader.search_topics
      (KnowledgeGraphLoader.load (.parsed gTopics) initState).2 "a" = ["Data"] ∧
    KnowledgeGraphLoader.search_topics
      (KnowledgeGraphLoader.load (.parsed gTopics) initState).2 "nlp" =
        ["NLP", "nlp"] :=
  ⟨rfl, rfl⟩

/-- Claim C3, counterexample: with two node entries sharing id n2 (first
of type document, second of type topic), the loaded graph holds type
topic for n2 — the second occurrence, not the first — so the neighbor
n2 of the document node n1 is filtered out of the related documents. -/
theorem C3_counterexample :
    loadedNodeType (KnowledgeGraphLoader.load (.parsed gDupC) initState).2 "n2" =
      some (JsonVal.str "topic") ∧
    loadedNodeType (KnowledgeGraphLoader.load (.parsed gDupC) initState).2 "n2" ≠
      some (JsonVal.str "document") ∧
    KnowledgeGraphLoader.get_related_documents
      (KnowledgeGraphLoader.load (.parsed gDupC) initState).2 "n1" = [] ∧
    KnowledgeGraphLoader.get_related_documents
      (KnowledgeGraphLoader.load (.parsed gDupC) initState).2 "n1" ≠ ["n2"] :=
  ⟨rfl, by decide, rfl, by decide⟩

/-- Claim C3, amended: when the nodes sequence contains two entries with
the same id, the loaded graph merges their attributes with later entries
overwriting earlier ones for the keys they carry (last write wins), so
attribute reads see the second entry's value. -/
theorem C3_duplicate_node_last_write_wins (t1 t2 : JsonVal) :
    loadedNodeType
      (KnowledgeGraphLoader.load (.parsed (gDup t1 t2)) initState).2 "n" =
      some t2 := rfl

/-- Claim C4: for any accessor state and any document name d that is not
among the loaded document names and not a node of the loaded graph,
get_document_info returns absent, get_document_topics returns the empty
list, and get_related_documents returns the empty list. -/
theorem C4_missing_name_queries_empty (s : LoaderState) (d : String)
    (hdoc : d ∉ KnowledgeGraphLoader.get_documents s)
    (hnode : ∀ g, s.nx_graph = some g → g.hasNode d = false) :
    KnowledgeGraphLoader.get_document_info s d = none ∧
    KnowledgeGraphLoader.get_document_topics s d = [] ∧
    KnowledgeGraphLoader.get_related_documents s d = [] := by
  have hinfo : KnowledgeGraphLoader.get_document_info s d = none := by
    unfold KnowledgeGraphLoader.get_document_info
    unfold KnowledgeGraphLoader.get_documents at hdoc
    rcases hs : s.graph_data with _ | g
    · rfl
    · rw [hs] at hdoc
      by_cases ht : g.pyTruthy = true
      · simp only [ht, if_true] at hdoc ⊢
        refine lookup_eq_none_of_keys_ne d _ ?_
        intro p hp hpd
        exact hdoc (List.mem_map.mpr ⟨p, hp, hpd⟩)
      · simp [ht]
  refine ⟨hinfo, ?_, ?_⟩
  · unfold KnowledgeGraphLoader.get_document_topics
    rw [hinfo]
  · unfold KnowledgeGraphLoader.get_related_documents
    rcases hs : s.nx_graph with _ | g
    · rfl
    · have hn := hnode g hs
      simp [NXGraph.pyTruthy, hn]

/-- Witness for C4: the name zzz is absent from the loaded end-to-end
fixture, and all three queries come back empty or absent. -/
theorem C4_missing_name_queries_empty_witness :
    ("zzz" ∉ KnowledgeGraphLoader.get_documents
        (KnowledgeGraphLoader.load (.parsed gC6) initState).2) ∧
    (KnowledgeGraphLoader.get_document_info
        (KnowledgeGraphLoader.load (.parsed gC6) initState).2 "zzz" = none ∧
      KnowledgeGraphLoader.get_document_topics
        (KnowledgeGraphLoader.load (.parsed gC6) initState).2 "zzz" = [] ∧
      KnowledgeGraphLoader.get_related_documents
        (KnowledgeGraphLoader.load (.parsed gC6) initState).2 "zzz" = []) :=
  ⟨by decide,
    C4_missing_name_queries_empty _ "zzz" (by decide)
      (fun g hg => by cases hg; decide)⟩

/-- Claim C5: queries that agree after lowercasing give identical
results under both get_documents_by_topic and search_topics, for every
accessor state. -/
theorem C5_topic_queries_case_insensitive (s : LoaderState) (q1 q2 : String)
    (h : pyLower q1 = pyLower q2) :
    KnowledgeGraphLoader.get_documents_by_topic s q1 =
      KnowledgeGraphLoader.get_documents_by_topic s q2 ∧
    KnowledgeGraphLoader.search_topics s q1 =
      KnowledgeGraphLoader.search_topics s q2 := by
  constructor
  · unfold KnowledgeGraphLoader.get_documents_by_topic
    rw [h]
  · unfold KnowledgeGraphLoader.search_topics
    rw [h]

/-- Witness for C5 on the end-to-end fixture with the case pair of the
spec example. -/
theorem C5_topic_queries_case_insensitive_witness :
    (pyLower "Topic" = pyLower "topic") ∧
    (KnowledgeGraphLoader.get_documents_by_topic
        (KnowledgeGraphLoader.load (.parsed gC6) initState).2 "Topic" =
      KnowledgeGraphLoader.get_documents_by_topic
        (KnowledgeGraphLoader.load (.parsed gC6) initState).2 "topic" ∧
      KnowledgeGraphLoader.search_topics
        (KnowledgeGraphLoader.load (.parsed gC6) initState).2 "Topic" =
      KnowledgeGraphLoader.search_topics
        (KnowledgeGraphLoader.load (.parsed gC6) initState).2 "topic") :=
  ⟨rfl, C5_topic_queries_case_insensitive _ "Topic" "topic" rfl⟩

/-- Claim C6: on the end-to-end fixture, the related documents of doc1
are exactly doc2, the topics of doc1 are ML then NLP, and the documents
carrying topic ml (case-insensitively) are exactly doc1. -/
theorem C6_end_to_end :
    KnowledgeGraphLoader.get_related_documents
      (KnowledgeGraphLoader.load (.parsed gC6) initState).2 "doc1" = ["doc2"] ∧
    KnowledgeGraphLoader.get_document_topics
      (KnowledgeGraphLoader.load (.parsed gC6) initState).2 "doc1" = ["ML", "NLP"] ∧
    KnowledgeGraphLoader.get_documents_by_topic
      (KnowledgeGraphLoader.load (.parsed gC6) initState).2 "ml" = ["doc1"] :=
  ⟨rfl, rfl, rfl⟩

/-- Claim C7: the graph summary of a fresh, unloaded accessor is exactly
the sentinel string. -/
theorem C7_summary_unloaded_sentinel :
    KnowledgeGraphLoader.get_graph_summary initState = "Knowledge graph not loaded" :=
  rfl

/-- Claim C8: querying the chatbot while no QA chain is configured fails
with the RuntimeError message instead of returning a result. -/
theorem C8_query_before_setup_fails (question : String) :
    RAGChatbot.query none question =
      Except.error "Chatbot not set up. Call setup() first." :=
  rfl

/-- Claim C9, counterexample: on the empty JSON object, `load` returns
`False`, not `True`: the success diagnostic indexes the absent `nodes`
key and the resulting `KeyError` is caught. -/
theorem C9_counterexample :
    (KnowledgeGraphLoader.load (.parsed gEmptyObj) initState).1 = false ∧
    (KnowledgeGraphLoader.load (.parsed gEmptyObj) initState).1 ≠ true :=
  ⟨rfl, by decide⟩

/-- Claim C9, amended: on the empty JSON object, `load` returns `False`,
and every query method thereafter behaves exactly as on an unloaded
accessor: all queries return empty or absent results and the summary is
the sentinel string. -/
theorem C9_empty_object_behaves_unloaded (d t q : String) :
    (KnowledgeGraphLoader.load (.parsed gEmptyObj) initState).1 = false ∧
    KnowledgeGraphLoader.get_documents
      (KnowledgeGraphLoader.load (.parsed gEmptyObj) initState).2 = [] ∧
    KnowledgeGraphLoader.get_document_info
      (KnowledgeGraphLoader.load (.parsed gEmptyObj) initState).2 d = none ∧
    KnowledgeGraphLoader.get_related_documents
      (KnowledgeGraphLoader.load (.parsed gEmptyObj) initState).2 d = [] ∧
    KnowledgeGraphLoader.get_document_topics
      (KnowledgeGraphLoader.load (.parsed gEmptyObj) initState).2 d = [] ∧
    KnowledgeGraphLoader.get_documents_by_topic
      (KnowledgeGraphLoader.load (.parsed gEmptyObj) initState).2 t = [] ∧
    KnowledgeGraphLoader.search_topics
      (KnowledgeGraphLoader.load (.parsed gEmptyObj) initState).2 q = [] ∧
    KnowledgeGraphLoader.get_statistics
      (KnowledgeGraphLoader.load (.parsed gEmptyObj) initState).2 = [] ∧
    KnowledgeGraphLoader.get_graph_summary
      (KnowledgeGraphLoader.load (.parsed gEmptyObj) initState).2 =
        "Knowledge graph not loaded" :=
  ⟨rfl, rfl, rfl, rfl, rfl, rfl, rfl, rfl, rfl⟩

/-- Claim C10: for every accessor state with duplicate-free document
names (Python dict keys are unique) and every topic, the result of
get_documents_by_topic is a subsequence of get_documents — it keeps the
enumeration order of the document mapping — and has no duplicates. -/
theorem C10_by_topic_sublist_of_documents (s : LoaderState) (t : String)
    (h : (KnowledgeGraphLoader.get_documents s).Nodup) :
    List.Sublist (KnowledgeGraphLoader.get_documents_by_topic s t)
      (KnowledgeGraphLoader.get_documents s) ∧
    (KnowledgeGraphLoader.get_documents_by_topic s t).Nodup := by
  have hsub : List.Sublist (KnowledgeGraphLoader.get_documents_by_topic s t)
      (KnowledgeGraphLoader.get_documents s) := by
    unfold KnowledgeGraphLoader.get_documents_by_topic
      KnowledgeGraphLoader.get_documents
    rcases hs : s.graph_data with _ | g
    · exact List.Sublist.refl []
    · by_cases ht : g.pyTruthy = true
      · simp only [ht, if_true]
        exact List.Sublist.map _ (List.filter_sublist _)
      · simp [ht]
  exact ⟨hsub, h.sublist hsub⟩

/-- Witness for C10 on the end-to-end fixture with topic ml. -/
theorem C10_by_topic_sublist_of_documents_witness :
    (KnowledgeGraphLoader.get_documents
        (KnowledgeGraphLoader.load (.parsed gC6) initState).2).Nodup ∧
    (List.Sublist
        (KnowledgeGraphLoader.get_documents_by_topic
          (KnowledgeGraphLoader.load (.parsed gC6) initState).2 "ml")
        (KnowledgeGraphLoader.get_documents
          (KnowledgeGraphLoader.load (.parsed gC6) initState).2) ∧
      (KnowledgeGraphLoader.get_documents_by_topic
          (KnowledgeGraphLoader.load (.parsed gC6) initState).2 "ml").Nodup) :=
  ⟨by decide, C10_by_topic_sublist_of_documents _ "ml" (by decide)⟩
